import Mathlib

/-!
Shallow embedding of `new instagrapi/main.py`: a Flask app that expands a
text idea via a text-generation service, generates an image via an image
service, keeps a two-slot (current/previous) undo buffer of the last
successful generation in the browser session, and posts images to
Instagram through a process-wide client with an on-disk session file.

External service calls (text generation, image generation, Instagram
login, settings dump, image decode) are modelled by explicit outcome
parameters of type `Except String _`, standing for the value returned or
the exception raised by the call.  Python truthiness of strings and
`Option` values is modelled by `optTruthy`.
-/

namespace Instagrapi

/-- Python truthiness for an optional string: `None` and `""` are falsy. -/
def optTruthy (o : Option String) : Bool :=
  match o with
  | some s => !(s == "")
  | none => false

/-- The `result` dict built by the `/generate` route: exactly the four keys
`detailed_prompt`, `image_url`, `image_path`, `image_status`. -/
structure GenerationResult where
  detailed_prompt : String
  image_url : Option String
  image_path : Option String
  image_status : String
deriving DecidableEq, Repr

/-- The per-browser-session Flask `session` dict keys used by the app.
`none` models an absent key. -/
structure SessionState where
  instagram_username : Option String
  instagram_password : Option String
  last_generated_image_data : Option GenerationResult
  last_generated_image_data_prev : Option GenerationResult
deriving DecidableEq, Repr

/-- The process-wide instagrapi `Client` instance, reduced to the pieces the
app observes: the `logged_in` flag read via `getattr` and the loaded
settings. `Client()` constructs a fresh unauthenticated instance. -/
structure Client where
  logged_in : Bool
  settings : Option String
deriving DecidableEq, Repr

/-- A fresh `Client()` instance: unauthenticated, no settings loaded. -/
def freshClient : Client := { logged_in := false, settings := none }

/-- Process-wide state outside the browser session: the on-disk
`instagrapi_session.json` file and the global client `cl`. -/
structure AppState where
  sess : SessionState
  sessionFileExists : Bool
  cl : Client
deriving DecidableEq, Repr

/-- Fixed output directory for generated images. -/
def OUTPUT_DIR : String := "static/generated_images"

/-- Python `str.strip()` with no argument: removes leading and trailing
whitespace characters, modelled structurally over the character list. -/
def pyStrip (s : String) : String :=
  ⟨((s.data.dropWhile Char.isWhitespace).reverse.dropWhile Char.isWhitespace).reverse⟩

/-- generate_prompt: expands the idea with the text service; on success
returns the response text stripped, on any exception falls back to the
original `user_input`.  `svc` is the outcome of
`client.models.generate_content(...)` followed by reading `.text`. -/
def generate_prompt (svc : Except String String) (user_input : String) : String :=
  match svc with
  | .ok text => pyStrip text
  | .error _ => user_input

/-- One content part of the image-service response; `inline_data` is the
binary payload when present (modelled as a string of bytes). -/
structure GenAIPart where
  inline_data : Option String
deriving DecidableEq, Repr

/-- The image-service response: content parts plus the `.text` field used in
the no-image-data error message. -/
structure GenAIResponse where
  parts : List GenAIPart
  text : String
deriving DecidableEq, Repr

/-- The loop in generate_image: take the first part whose `inline_data` is
truthy (non-empty bytes). -/
def findImageData (parts : List GenAIPart) : Option String :=
  parts.findSome? fun p =>
    match p.inline_data with
    | some d => if d == "" then none else some d
    | none => none

/-- Filename scheme `generated_image_YYYYMMDD_HHMMSS.jpg`; `ts` is the
formatted timestamp. -/
def imageFilename (ts : String) : String :=
  "generated_image_" ++ ts ++ ".jpg"

/-- generate_image: requests an image from the service, scans parts for the
first inline payload, decodes and saves it, and returns
`(image_path, image_url, image_status)`.  `svc` is the outcome of the
service call, `decode` the outcome of `Image.open`/`convert`/`save`, `ts`
the current timestamp.  Any exception in the `try` body yields
`(None, None, "Error generating image: " + e)`. -/
def generate_image (svc : Except String GenAIResponse)
    (decode : Except String Unit) (ts : String) :
    Option String × Option String × String :=
  match svc with
  | .error e => (none, none, "Error generating image: " ++ e)
  | .ok response =>
    match findImageData response.parts with
    | none =>
      (none, none,
        "Error generating image: " ++
          ("No image data returned. Text response: " ++ response.text))
    | some _ =>
      match decode with
      | .error e => (none, none, "Error generating image: " ++ e)
      | .ok _ =>
        let image_path := OUTPUT_DIR ++ "/" ++ imageFilename ts
        let image_url := "/" ++ OUTPUT_DIR ++ "/" ++ imageFilename ts
        (some image_path, some image_url, "Image generation successful!")

/-- Body of a `/generate` response: either the error JSON of the 400 branch
or the four-key result JSON. -/
inductive GenerateBody where
  | error (msg : String)
  | result (r : GenerationResult)
deriving DecidableEq, Repr

/-- Outcome of one `POST /generate` request: HTTP status, JSON body, the
session after the request, and whether each external service was invoked. -/
structure GenerateOutcome where
  status : Nat
  body : GenerateBody
  newSession : SessionState
  calledPromptService : Bool
  calledImageService : Bool
deriving DecidableEq, Repr

/-- The `/generate` route.  `idea` is `request.form.get('idea')`
(`none` when the field is missing); `promptSvc`, `imgSvc`, `decode`, `ts`
are the external-call outcomes threaded to `generate_prompt` and
`generate_image`.  An empty or missing idea returns 400 without touching
the session or calling any service; otherwise the result is built and, only
when both `image_path` and `image_url` are truthy, the current slot is
shifted into the previous slot and overwritten with the new result. -/
def generate_route (sess : SessionState) (idea : Option String)
    (promptSvc : Except String String) (imgSvc : Except String GenAIResponse)
    (decode : Except String Unit) (ts : String) : GenerateOutcome :=
  if !(optTruthy idea) then
    { status := 400, body := .error "Input cannot be empty.",
      newSession := sess, calledPromptService := false,
      calledImageService := false }
  else
    let user_idea := idea.getD ""
    let detailed_prompt := generate_prompt promptSvc user_idea
    let gen := generate_image imgSvc decode ts
    let image_path := gen.1
    let image_url := gen.2.1
    let image_status := gen.2.2
    let result : GenerationResult :=
      { detailed_prompt := detailed_prompt, image_url := image_url,
        image_path := image_path, image_status := image_status }
    let newSession :=
      if optTruthy image_path && optTruthy image_url then
        { sess with
          last_generated_image_data_prev := sess.last_generated_image_data,
          last_generated_image_data := some result }
      else sess
    { status := 200, body := .result result, newSession := newSession,
      calledPromptService := true, calledImageService := true }

/-- The `GET /last_image` route: if the previous slot is set, promote it to
current, clear the previous slot and return it with status 200; otherwise
return a 404 error leaving the session untouched.  Result is
`(status, returned result, session after the request)`. -/
def get_last_image (sess : SessionState) :
    Nat × Option GenerationResult × SessionState :=
  match sess.last_generated_image_data_prev with
  | some prev_result =>
    (200, some prev_result,
      { sess with
        last_generated_image_data := some prev_result,
        last_generated_image_data_prev := none })
  | none => (404, none, sess)

/-- Outcome of one `POST /post` request: HTTP status, the `success` flag of
the JSON body, and whether `post_to_instagram` (login + upload) was
invoked. -/
structure PostOutcome where
  status : Nat
  success : Bool
  attemptedPost : Bool
deriving DecidableEq, Repr

/-- The `/post` route.  `image_path` is `data.get('image_path')`;
`uploadOk` is the boolean returned by `post_to_instagram`.  The route
returns 401 when `instagram_username` is not a key of the session (before
looking at the payload), 400 when `image_path` is falsy, and otherwise 200
or 500 according to the upload outcome. -/
def post_route (sess : SessionState) (image_path : Option String)
    (uploadOk : Bool) : PostOutcome :=
  if sess.instagram_username.isNone then
    { status := 401, success := false, attemptedPost := false }
  else if !(optTruthy image_path) then
    { status := 400, success := false, attemptedPost := false }
  else if uploadOk then
    { status := 200, success := true, attemptedPost := true }
  else
    { status := 500, success := false, attemptedPost := true }

/-- Exceptions raised by login_instagram. -/
inductive LoginException where
  | valueError (msg : String)
  | connectionError (msg : String)
deriving DecidableEq, Repr

/-- Outcome of one login_instagram call: the raised exception or unit, the
existence of the session file afterwards, and whether `cl.login` was
invoked on the network. -/
structure LoginOutcome where
  result : Except LoginException Unit
  sessionFileExists : Bool
  attemptedNetworkLogin : Bool
deriving Repr

/-- login_instagram.  Credentials come from the session, falling back to
the environment when either session credential is falsy; if the fallback is
also falsy a `ValueError` is raised.  A pre-existing session file is loaded
(a load failure only prints and falls through, `loadCall` is observably
ignored).  If `getattr(cl, 'logged_in', False)` is true the function
returns without a network login.  Otherwise `cl.login` runs, then
`cl.dump_settings` persists the session; any exception in that `try` block
removes the session file (if present) and raises a `ConnectionError`. -/
def login_instagram (sessUsername sessPassword envUsername envPassword : Option String)
    (fileExists : Bool) (loadCall : Except String Unit) (logged_in : Bool)
    (loginCall : Except String Unit) (dumpCall : Except String Unit) :
    LoginOutcome :=
  let _ := loadCall
  let creds :=
    if optTruthy sessUsername && optTruthy sessPassword then
      (sessUsername, sessPassword)
    else
      (envUsername, envPassword)
  if !(optTruthy creds.1 && optTruthy creds.2) then
    { result := .error (.valueError
        "Instagram credentials not found in session or .env file."),
      sessionFileExists := fileExists, attemptedNetworkLogin := false }
  else if logged_in then
    { result := .ok (), sessionFileExists := fileExists,
      attemptedNetworkLogin := false }
  else
    match loginCall with
    | .error e =>
      { result := .error (.connectionError
          ("Failed to log in to Instagram: " ++ e)),
        sessionFileExists := false, attemptedNetworkLogin := true }
    | .ok _ =>
      match dumpCall with
      | .error e =>
        { result := .error (.connectionError
            ("Failed to log in to Instagram: " ++ e)),
          sessionFileExists := false, attemptedNetworkLogin := true }
      | .ok _ =>
        { result := .ok (), sessionFileExists := true,
          attemptedNetworkLogin := true }

/-- The `GET /logout` route: pops `instagram_username`,
`instagram_password` and `last_generated_image_data` from the session,
removes the session file if it exists, and rebinds the global `cl` to a
fresh `Client()`. -/
def logout (st : AppState) : AppState :=
  { sess :=
      { st.sess with
        instagram_username := none,
        instagram_password := none,
        last_generated_image_data := none },
    sessionFileExists := false,
    cl := freshClient }

/-- Formalisation of the claim that `/logout` clears all browser-session
state (credentials and both undo-buffer slots), deletes the session file
and resets the process-wide client. -/
def logoutClearsAll : Prop :=
  ∀ st : AppState,
    (logout st).sess.instagram_username = none ∧
    (logout st).sess.instagram_password = none ∧
    (logout st).sess.last_generated_image_data = none ∧
    (logout st).sess.last_generated_image_data_prev = none ∧
    (logout st).sessionFileExists = false ∧
    (logout st).cl = freshClient

/-! Theorems settling the claims. -/

/-- optTruthy on a missing value is falsy. -/
@[simp] theorem optTruthy_none : optTruthy none = false := rfl

/-- optTruthy on a present string tests non-emptiness. -/
@[simp] theorem optTruthy_some (s : String) : optTruthy (some s) = !(s == "") := rfl

/-- C1: starting from any buffer state, two successful `/generate` calls
producing results A then B leave `current = B` and `previous = A`, and a
subsequent `GET /last_image` returns A with status 200 and leaves the
buffer with `current = A` and `previous` empty. -/
theorem C1_undo_shift_and_pop
    (sess : SessionState) (idea1 idea2 : Option String)
    (p1 p2 : Except String String) (i1 i2 : Except String GenAIResponse)
    (d1 d2 : Except String Unit) (ts1 ts2 : String)
    (h1 : optTruthy idea1 = true) (h2 : optTruthy idea2 = true)
    (hp1 : optTruthy (generate_image i1 d1 ts1).1 = true)
    (hu1 : optTruthy (generate_image i1 d1 ts1).2.1 = true)
    (hp2 : optTruthy (generate_image i2 d2 ts2).1 = true)
    (hu2 : optTruthy (generate_image i2 d2 ts2).2.1 = true) :
    ∃ A B : GenerationResult,
      (generate_route sess idea1 p1 i1 d1 ts1).body = .result A ∧
      (generate_route (generate_route sess idea1 p1 i1 d1 ts1).newSession
          idea2 p2 i2 d2 ts2).body = .result B ∧
      (generate_route (generate_route sess idea1 p1 i1 d1 ts1).newSession
          idea2 p2 i2 d2 ts2).newSession.last_generated_image_data = some B ∧
      (generate_route (generate_route sess idea1 p1 i1 d1 ts1).newSession
          idea2 p2 i2 d2 ts2).newSession.last_generated_image_data_prev = some A ∧
      (get_last_image (generate_route (generate_route sess idea1 p1 i1 d1 ts1).newSession
          idea2 p2 i2 d2 ts2).newSession).1 = 200 ∧
      (get_last_image (generate_route (generate_route sess idea1 p1 i1 d1 ts1).newSession
          idea2 p2 i2 d2 ts2).newSession).2.1 = some A ∧
      (get_last_image (generate_route (generate_route sess idea1 p1 i1 d1 ts1).newSession
          idea2 p2 i2 d2 ts2).newSession).2.2.last_generated_image_data = some A ∧
      (get_last_image (generate_route (generate_route sess idea1 p1 i1 d1 ts1).newSession
          idea2 p2 i2 d2 ts2).newSession).2.2.last_generated_image_data_prev = none := by
  refine ⟨{ detailed_prompt := generate_prompt p1 (idea1.getD ""),
            image_url := (generate_image i1 d1 ts1).2.1,
            image_path := (generate_image i1 d1 ts1).1,
            image_status := (generate_image i1 d1 ts1).2.2 },
          { detailed_prompt := generate_prompt p2 (idea2.getD ""),
            image_url := (generate_image i2 d2 ts2).2.1,
            image_path := (generate_image i2 d2 ts2).1,
            image_status := (generate_image i2 d2 ts2).2.2 }, ?_, ?_, ?_, ?_, ?_, ?_, ?_, ?_⟩ <;>
    simp [generate_route, get_last_image, h1, h2, hp1, hu1, hp2, hu2]

/-- C1 witness: concrete run with two successful generations followed by a
pop. -/
theorem C1_undo_shift_and_pop_witness :
    ∃ A B : GenerationResult,
      (generate_route ⟨none, none, none, none⟩ (some "a cat") (.ok "vivid cat") (.ok ⟨[⟨some "IMG1"⟩], "t1"⟩) (.ok ()) "20250101_000001").body = .result A ∧
      (generate_route (generate_route ⟨none, none, none, none⟩ (some "a cat") (.ok "vivid cat") (.ok ⟨[⟨some "IMG1"⟩], "t1"⟩) (.ok ()) "20250101_000001").newSession
          (some "a dog") (.ok "vivid dog") (.ok ⟨[⟨some "IMG2"⟩], "t2"⟩) (.ok ()) "20250101_000002").body = .result B ∧
      (generate_route (generate_route ⟨none, none, none, none⟩ (some "a cat") (.ok "vivid cat") (.ok ⟨[⟨some "IMG1"⟩], "t1"⟩) (.ok ()) "20250101_000001").newSession
          (some "a dog") (.ok "vivid dog") (.ok ⟨[⟨some "IMG2"⟩], "t2"⟩) (.ok ()) "20250101_000002").newSession.last_generated_image_data = some B ∧
      (generate_route (generate_route ⟨none, none, none, none⟩ (some "a cat") (.ok "vivid cat") (.ok ⟨[⟨some "IMG1"⟩], "t1"⟩) (.ok ()) "20250101_000001").newSession
          (some "a dog") (.ok "vivid dog") (.ok ⟨[⟨some "IMG2"⟩], "t2"⟩) (.ok ()) "20250101_000002").newSession.last_generated_image_data_prev = some A ∧
      (get_last_image (generate_route (generate_route ⟨none, none, none, none⟩ (some "a cat") (.ok "vivid cat") (.ok ⟨[⟨some "IMG1"⟩], "t1"⟩) (.ok ()) "20250101_000001").newSession
          (some "a dog") (.ok "vivid dog") (.ok ⟨[⟨some "IMG2"⟩], "t2"⟩) (.ok ()) "20250101_000002").newSession).1 = 200 ∧
      (get_last_image (generate_route (generate_route ⟨none, none, none, none⟩ (some "a cat") (.ok "vivid cat") (.ok ⟨[⟨some "IMG1"⟩], "t1"⟩) (.ok ()) "20250101_000001").newSession
          (some "a dog") (.ok "vivid dog") (.ok ⟨[⟨some "IMG2"⟩], "t2"⟩) (.ok ()) "20250101_000002").newSession).2.1 = some A ∧
      (get_last_image (generate_route (generate_route ⟨none, none, none, none⟩ (some "a cat") (.ok "vivid cat") (.ok ⟨[⟨some "IMG1"⟩], "t1"⟩) (.ok ()) "20250101_000001").newSession
          (some "a dog") (.ok "vivid dog") (.ok ⟨[⟨some "IMG2"⟩], "t2"⟩) (.ok ()) "20250101_000002").newSession).2.2.last_generated_image_data = some A ∧
      (get_last_image (generate_route (generate_route ⟨none, none, none, none⟩ (some "a cat") (.ok "vivid cat") (.ok ⟨[⟨some "IMG1"⟩], "t1"⟩) (.ok ()) "20250101_000001").newSession
          (some "a dog") (.ok "vivid dog") (.ok ⟨[⟨some "IMG2"⟩], "t2"⟩) (.ok ()) "20250101_000002").newSession).2.2.last_generated_image_data_prev = none :=
  C1_undo_shift_and_pop ⟨none, none, none, none⟩ (some "a cat") (some "a dog")
    (.ok "vivid cat") (.ok "vivid dog") (.ok ⟨[⟨some "IMG1"⟩], "t1"⟩)
    (.ok ⟨[⟨some "IMG2"⟩], "t2"⟩) (.ok ()) (.ok ())
    "20250101_000001" "20250101_000002"
    (by decide) (by decide) (by decide) (by decide) (by decide) (by decide)

/-- C2: popping with an empty previous slot fails with 404 and leaves the
session unchanged (so repeated calls keep failing identically), and after
any successful pop a second pop fails with 404 and leaves the session
unchanged, since the first pop cleared the previous slot. -/
theorem C2_pop_empty_fails_and_single_use (sess : SessionState) :
    (sess.last_generated_image_data_prev = none →
      get_last_image sess = (404, none, sess)) ∧
    (∀ r : GenerationResult, sess.last_generated_image_data_prev = some r →
      (get_last_image sess).1 = 200 ∧
      (get_last_image sess).2.2.last_generated_image_data_prev = none ∧
      get_last_image (get_last_image sess).2.2 =
        (404, none, (get_last_image sess).2.2)) := by
  constructor
  · intro h
    simp [get_last_image, h]
  · intro r h
    simp [get_last_image, h]

/-- C2 witness: a session with empty previous slot keeps failing, and a
session with a full previous slot fails on the second pop. -/
theorem C2_pop_empty_fails_and_single_use_witness :
    get_last_image ⟨some "u", none, none, none⟩ =
      (404, none, ⟨some "u", none, none, none⟩) ∧
    ((get_last_image ⟨none, none, none, some ⟨"p", some "u", some "pa", "ok"⟩⟩).1 = 200 ∧
      (get_last_image ⟨none, none, none, some ⟨"p", some "u", some "pa", "ok"⟩⟩).2.2.last_generated_image_data_prev = none ∧
      get_last_image (get_last_image ⟨none, none, none, some ⟨"p", some "u", some "pa", "ok"⟩⟩).2.2 =
        (404, none, (get_last_image ⟨none, none, none, some ⟨"p", some "u", some "pa", "ok"⟩⟩).2.2)) :=
  ⟨(C2_pop_empty_fails_and_single_use ⟨some "u", none, none, none⟩).1 rfl,
   (C2_pop_empty_fails_and_single_use ⟨none, none, none, some ⟨"p", some "u", some "pa", "ok"⟩⟩).2
     ⟨"p", some "u", some "pa", "ok"⟩ rfl⟩

/-- C3: a `/generate` call whose image generation fails (its returned
`image_path` is `None`) leaves both undo-buffer slots, and the whole
session, exactly as they were. -/
theorem C3_failed_generation_frame
    (sess : SessionState) (idea : Option String) (psvc : Except String String)
    (isvc : Except String GenAIResponse) (decode : Except String Unit) (ts : String)
    (hidea : optTruthy idea = true)
    (hfail : (generate_image isvc decode ts).1 = none) :
    (generate_route sess idea psvc isvc decode ts).newSession = sess := by
  simp [generate_route, hidea, hfail]

/-- C3 witness: a failing image service call leaves a concrete session
unchanged. -/
theorem C3_failed_generation_frame_witness :
    (generate_route ⟨some "u", some "pw", some ⟨"p", some "u1", some "p1", "ok"⟩, none⟩
        (some "a cat") (.ok "vivid cat") (.error "boom") (.ok ()) "20250101_000001").newSession =
      ⟨some "u", some "pw", some ⟨"p", some "u1", some "p1", "ok"⟩, none⟩ :=
  C3_failed_generation_frame ⟨some "u", some "pw", some ⟨"p", some "u1", some "p1", "ok"⟩, none⟩
    (some "a cat") (.ok "vivid cat") (.error "boom") (.ok ()) "20250101_000001"
    (by decide) (by decide)

/-- C4: `POST /generate` with a missing or empty `idea` field returns 400,
does not touch the session, and calls neither the prompt-expansion nor the
image-generation service. -/
theorem C4_empty_idea_400
    (sess : SessionState) (idea : Option String) (psvc : Except String String)
    (isvc : Except String GenAIResponse) (decode : Except String Unit) (ts : String)
    (h : idea = none ∨ idea = some "") :
    generate_route sess idea psvc isvc decode ts =
      { status := 400, body := .error "Input cannot be empty.",
        newSession := sess, calledPromptService := false,
        calledImageService := false } := by
  rcases h with h | h <;> subst h <;> rfl

/-- C4 witness: a missing idea at a concrete session returns the 400
outcome. -/
theorem C4_empty_idea_400_witness :
    generate_route ⟨some "u", some "pw", none, none⟩ none (.ok "x")
        (.ok ⟨[⟨some "IMG"⟩], "t"⟩) (.ok ()) "20250101_000001" =
      { status := 400, body := .error "Input cannot be empty.",
        newSession := ⟨some "u", some "pw", none, none⟩,
        calledPromptService := false, calledImageService := false } :=
  C4_empty_idea_400 ⟨some "u", some "pw", none, none⟩ none (.ok "x")
    (.ok ⟨[⟨some "IMG"⟩], "t"⟩) (.ok ()) "20250101_000001" (Or.inl rfl)

/-- C5: `POST /post` with no `instagram_username` key in the session
returns 401 with `success = False` and never invokes
`post_to_instagram` (so no login or upload is attempted), regardless of
the payload. -/
theorem C5_post_unauthenticated_401
    (sess : SessionState) (image_path : Option String) (uploadOk : Bool)
    (h : sess.instagram_username = none) :
    post_route sess image_path uploadOk =
      { status := 401, success := false, attemptedPost := false } := by
  simp [post_route, h]

/-- C5 witness: an unauthenticated session with a perfectly valid payload
still gets 401 and no upload attempt. -/
theorem C5_post_unauthenticated_401_witness :
    post_route ⟨none, none, none, none⟩ (some "static/generated_images/a.jpg") true =
      { status := 401, success := false, attemptedPost := false } :=
  C5_post_unauthenticated_401 ⟨none, none, none, none⟩
    (some "static/generated_images/a.jpg") true rfl

/-- C6: when the client is not already logged in and session credentials
are present, a failing `cl.login` makes login_instagram raise
`ConnectionError` and leaves no session file on disk; and when both
`cl.login` and `cl.dump_settings` succeed, the call returns normally with
the session persisted to the file. -/
theorem C6_login_failure_deletes_session_file
    (sessU sessP envU envP : Option String) (fileExists : Bool)
    (loadCall loginCall dumpCall : Except String Unit)
    (hU : optTruthy sessU = true) (hP : optTruthy sessP = true) :
    (∀ e, loginCall = .error e →
      login_instagram sessU sessP envU envP fileExists loadCall false loginCall dumpCall =
        { result := .error (.connectionError ("Failed to log in to Instagram: " ++ e)),
          sessionFileExists := false, attemptedNetworkLogin := true }) ∧
    (loginCall = .ok () → dumpCall = .ok () →
      login_instagram sessU sessP envU envP fileExists loadCall false loginCall dumpCall =
        { result := .ok (), sessionFileExists := true,
          attemptedNetworkLogin := true }) := by
  constructor
  · intro e he
    subst he
    simp [login_instagram, hU, hP]
  · intro hl hd
    subst hl
    subst hd
    simp [login_instagram, hU, hP]

/-- C6 witness: a concrete failed login deletes the file and raises
`ConnectionError`; a concrete successful login persists the file. -/
theorem C6_login_failure_deletes_session_file_witness :
    login_instagram (some "user") (some "pw") none none true (.ok ()) false
        (.error "bad password") (.ok ()) =
      { result := .error (.connectionError ("Failed to log in to Instagram: " ++ "bad password")),
        sessionFileExists := false, attemptedNetworkLogin := true } ∧
    login_instagram (some "user") (some "pw") none none false (.ok ()) false
        (.ok ()) (.ok ()) =
      { result := .ok (), sessionFileExists := true,
        attemptedNetworkLogin := true } :=
  ⟨(C6_login_failure_deletes_session_file (some "user") (some "pw") none none true
      (.ok ()) (.error "bad password") (.ok ()) (by decide) (by decide)).1 "bad password" rfl,
   (C6_login_failure_deletes_session_file (some "user") (some "pw") none none false
      (.ok ()) (.ok ()) (.ok ()) (by decide) (by decide)).2 rfl rfl⟩

/-- C7 counterexample: `generate_prompt` does not return a non-empty string
for every non-empty idea — if the text service succeeds with a
whitespace-only response, the stripped result is empty. -/
theorem C7_counterexample :
    ¬ (∀ (svc : Except String String) (idea : String), idea ≠ "" →
        generate_prompt svc idea ≠ "") := by
  intro h
  exact h (Except.ok " ") "a cat in a hat" (by decide) (by decide)

/-- C7 (amended): for any non-empty idea, when the text-service call fails
`generate_prompt` returns the original idea unchanged (hence non-empty)
without propagating the exception; when the call succeeds it returns the
service text stripped, which may be empty when that text is only
whitespace. -/
theorem C7_expand_fallback
    (idea e t : String) (h : idea ≠ "") :
    generate_prompt (.error e) idea = idea ∧
    generate_prompt (.error e) idea ≠ "" ∧
    generate_prompt (.ok t) idea = pyStrip t :=
  ⟨rfl, h, rfl⟩

/-- C7 witness: concrete fallback on a failing service call. -/
theorem C7_expand_fallback_witness :
    generate_prompt (.error "timeout") "a cat in a hat" = "a cat in a hat" ∧
    generate_prompt (.error "timeout") "a cat in a hat" ≠ "" ∧
    generate_prompt (.ok "  vivid cat  ") "a cat in a hat" = pyStrip "  vivid cat  " :=
  C7_expand_fallback "a cat in a hat" "timeout" "  vivid cat  " (by decide)

/-- C8 counterexample: `/logout` does not clear all browser-session state —
the undo buffer's previous slot (`last_generated_image_data_prev`) is not
popped, so stored image data survives logout. -/
theorem C8_counterexample : ¬ logoutClearsAll := by
  intro h
  have hprev :=
    (h ⟨⟨some "u", some "pw", some ⟨"p", some "u1", some "p1", "ok"⟩,
          some ⟨"q", some "u2", some "p2", "ok"⟩⟩, true, freshClient⟩).2.2.2.1
  simp [logout] at hprev

/-- C8 (amended): `/logout` clears the stored credentials and the undo
buffer's current slot, deletes the on-disk session file, and resets the
process-wide client to a fresh unauthenticated instance; the undo buffer's
previous slot is left unchanged. -/
theorem C8_logout_resets (st : AppState) :
    (logout st).sess.instagram_username = none ∧
    (logout st).sess.instagram_password = none ∧
    (logout st).sess.last_generated_image_data = none ∧
    (logout st).sess.last_generated_image_data_prev =
      st.sess.last_generated_image_data_prev ∧
    (logout st).sessionFileExists = false ∧
    (logout st).cl = freshClient :=
  ⟨rfl, rfl, rfl, rfl, rfl, rfl⟩

/-- C9: `/generate` with a non-empty idea and a failing image-service call
returns a result whose `image_url` is `None` and whose `image_status` is a
non-empty string containing "Error". -/
theorem C9_failure_status
    (sess : SessionState) (idea : Option String) (psvc : Except String String)
    (e : String) (decode : Except String Unit) (ts : String)
    (hidea : optTruthy idea = true) :
    ∃ r : GenerationResult,
      (generate_route sess idea psvc (.error e) decode ts).body = .result r ∧
      r.image_url = none ∧
      r.image_status = "Error" ++ (" generating image: " ++ e) ∧
      r.image_status ≠ "" := by
  refine ⟨{ detailed_prompt := generate_prompt psvc (idea.getD ""),
            image_url := none, image_path := none,
            image_status := "Error generating image: " ++ e }, ?_, rfl, ?_, ?_⟩
  · simp [generate_route, hidea, generate_image]
  · have h1 : ("Error" : String) ++ " generating image: " = "Error generating image: " := rfl
    show ("Error generating image: " : String) ++ e = "Error" ++ (" generating image: " ++ e)
    rw [← h1, String.append_assoc]
  · intro hcon
    have hlen := congrArg String.length hcon
    simp [String.length_append] at hlen
    exact absurd hlen.1 (by decide)

/-- C9 witness: concrete failing image generation yields a null URL and an
"Error ..." status. -/
theorem C9_failure_status_witness :
    ∃ r : GenerationResult,
      (generate_route ⟨none, none, none, none⟩ (some "a cat in a hat")
          (.ok "vivid cat") (.error "service down") (.ok ()) "20250101_000001").body = .result r ∧
      r.image_url = none ∧
      r.image_status = "Error" ++ (" generating image: " ++ "service down") ∧
      r.image_status ≠ "" :=
  C9_failure_status ⟨none, none, none, none⟩ (some "a cat in a hat")
    (.ok "vivid cat") "service down" (.ok ()) "20250101_000001" (by decide)

/-- C10: every `/generate` call with a non-empty idea returns HTTP 200 and
a four-field result body (`detailed_prompt`, `image_url`, `image_path`,
`image_status`), whatever the service outcomes — failure is never
signalled through the status code. -/
theorem C10_generate_always_200
    (sess : SessionState) (idea : Option String) (psvc : Except String String)
    (isvc : Except String GenAIResponse) (decode : Except String Unit) (ts : String)
    (hidea : optTruthy idea = true) :
    (generate_route sess idea psvc isvc decode ts).status = 200 ∧
    ∃ r : GenerationResult,
      (generate_route sess idea psvc isvc decode ts).body = .result r := by
  constructor
  · simp [generate_route, hidea]
  · refine ⟨{ detailed_prompt := generate_prompt psvc (idea.getD ""),
              image_url := (generate_image isvc decode ts).2.1,
              image_path := (generate_image isvc decode ts).1,
              image_status := (generate_image isvc decode ts).2.2 }, ?_⟩
    simp [generate_route, hidea]

/-- C10 witness: a concrete failing generation still answers 200 with a
result body. -/
theorem C10_generate_always_200_witness :
    (generate_route ⟨none, none, none, none⟩ (some "a cat") (.error "text down")
        (.error "image down") (.ok ()) "20250101_000001").status = 200 ∧
    ∃ r : GenerationResult,
      (generate_route ⟨none, none, none, none⟩ (some "a cat") (.error "text down")
          (.error "image down") (.ok ()) "20250101_000001").body = .result r :=
  C10_generate_always_200 ⟨none, none, none, none⟩ (some "a cat") (.error "text down")
    (.error "image down") (.ok ()) "20250101_000001" (by decide)

end Instagrapi
